/-
  Verification of the probability / expected-value estimation engine of the
  fantasy-probabilities repository.

  Shallow embedding conventions:
  * Python `float` arithmetic is modelled with exact rationals (`ℚ`).
  * American odds quotes are modelled as integers (`ℤ`), matching the
    integer prices delivered by the odds feeds.
  * Python division raises `ZeroDivisionError` on a zero denominator;
    computations whose source can raise are embedded in `Except Unit`
    (with `.error ()` standing for a raised exception caught by the
    enclosing `try/except`).
  * The numerical library routines `math.erf`/`np.math.erf` (inside
    `_normal_cdf`), `np.sqrt` and `np.std` are external to the repository;
    they are modelled as explicit function parameters (`ncdf`, `sqrt`,
    `std`).  Where the source divides by `np.sqrt(variance)` with
    `variance ≥ 1` we carry the hypothesis that the square-root model is
    positive on `[1, ∞)`, which holds for the real square root.
  * Leading underscores of private Python methods are dropped
    (`_adjust_for_spread` becomes `adjust_for_spread`, and so on).
-/
import Mathlib

namespace App
/- ============================ src/app.py ============================ -/

/-- Python's `round` on rationals with an exact decimal representation:
round-half-to-even (banker's rounding) of `x` to an integer. -/
def roundHalfEven (x : ℚ) : ℤ :=
  let f : ℤ := ⌊x⌋
  let r : ℚ := x - f
  if r < 1/2 then f
  else if 1/2 < r then f + 1
  else if f % 2 = 0 then f else f + 1

/-- `round(x, n)` from Python, on rationals. -/
def roundTo (n : ℕ) (x : ℚ) : ℚ :=
  (roundHalfEven (x * 10 ^ n) : ℚ) / 10 ^ n

/-- Implied probability from an American odds quote, as computed inline in
`get_sport_opportunities`:
`100/(odds+100)` for positive odds, `|odds|/(|odds|+100)` otherwise. -/
def impliedProb (odds : ℤ) : ℚ :=
  if 0 < odds then 100 / ((odds : ℚ) + 100)
  else |(odds : ℚ)| / (|(odds : ℚ)| + 100)

/-- Potential payout per unit stake, as computed inline in
`get_sport_opportunities`: `odds/100` for positive odds, `100/|odds|`
otherwise. -/
def potentialPayout (odds : ℤ) : ℚ :=
  if 0 < odds then (odds : ℚ) / 100
  else 100 / |(odds : ℚ)|

/-- Heuristic "calculated probability" for team props
(`get_sport_opportunities`, team-prop loop): moneyline quotes shrink the
implied probability by factor 0.98 when `|odds| > 200` and 0.99 otherwise;
spreads and totals with a nonzero point shrink by 0.985; anything else is
left at the implied probability.  (The `try` body is pure arithmetic, so
the `except` fallback to `implied_prob` is unreachable.) -/
def teamCalculatedProb (marketKey : String) (point : ℚ) (odds : ℤ) : ℚ :=
  let implied := impliedProb odds
  if marketKey = "h2h" then
    if 200 < |odds| then implied * (98/100) else implied * (99/100)
  else if marketKey = "spreads" ∧ point ≠ 0 then implied * (985/1000)
  else if marketKey = "totals" ∧ point ≠ 0 then implied * (985/1000)
  else implied

/-- Heuristic "calculated probability" for player props
(`get_sport_opportunities`, player-prop loop): shrink factor 0.97 when
`|odds| < 150`, 0.96 otherwise. -/
def playerCalculatedProb (odds : ℤ) : ℚ :=
  let implied := impliedProb odds
  if |odds| < 150 then implied * (97/100) else implied * (96/100)

/-- One bookmaker's quote for one outcome of one market: the American-odds
price (`outcome['price']`) and the bookmaker's display title
(`bookmaker['title']`). -/
structure Quote where
  price : ℤ
  bookmaker : String
deriving DecidableEq

/-- The accumulator dict stored in `best_odds_map` for one key in the
team-prop loop of `get_sport_opportunities` (probabilities are stored as
rounded percentages, as in the source; the `'type'` tag and timestamp are
omitted as constants). -/
structure TeamOpp where
  sport : String
  selection : String
  prop : String
  line : Option ℚ
  odds : ℤ
  implied_probability : ℚ
  calculated_probability : ℚ
  expected_value : ℚ
  game : String
  bookmaker : String
  bookmakers : List String
deriving DecidableEq

/-- Python `str.title()` restricted to space-separated words. -/
def titleCase (s : String) : String :=
  String.intercalate " " ((s.splitOn " ").map String.capitalize)

/-- The accumulator dict stored in `player_best_odds` for one key in the
player-prop loop of `get_sport_opportunities`. -/
structure PlayerOpp where
  sport : String
  player : String
  prop : String
  line : ℚ
  odds : ℤ
  implied_probability : ℚ
  calculated_probability : ℚ
  expected_value : ℚ
  game : String
  bookmaker : String
  bookmakers : List String
deriving DecidableEq

/-- Processing of one quote against the `best_odds_map` entry for one
`opp_key`, from the team-prop loop of `get_sport_opportunities`
(src/app.py): zero-priced outcomes are skipped; the first quote creates
the record; a quote passing the `is_better` test
(`(odds > 0 and odds > existing) or (odds < 0 and odds > existing)`)
replaces odds and bookmaker, resets the bookmaker list, and recomputes
the implied probability and the expected value from the new price and the
current iteration's `calculated_prob`; an equal price appends the
bookmaker if new and rejoins the display name. -/
def teamStep (sport game marketKey selection : String) (point : ℚ)
    (acc : Option TeamOpp) (q : Quote) : Option TeamOpp :=
  if q.price = 0 then acc
  else
    let implied := impliedProb q.price
    let calculated := teamCalculatedProb marketKey point q.price
    let ev := (calculated - implied) * potentialPayout q.price
    match acc with
    | none => some
        { sport := sport
          selection := selection
          prop := marketKey.toUpper
          line := if point ≠ 0 then some point else none
          odds := q.price
          implied_probability := roundTo 2 (implied * 100)
          calculated_probability := roundTo 2 (calculated * 100)
          expected_value := roundTo 3 ev
          game := game
          bookmaker := q.bookmaker
          bookmakers := [q.bookmaker] }
    | some existing =>
        if (0 < q.price ∧ existing.odds < q.price) ∨
            (q.price < 0 ∧ existing.odds < q.price) then
          some { existing with
            odds := q.price
            bookmaker := q.bookmaker
            bookmakers := [q.bookmaker]
            implied_probability := roundTo 2 (implied * 100)
            expected_value := roundTo 3 ((calculated - implied) * potentialPayout q.price) }
        else if q.price = existing.odds then
          if q.bookmaker ∈ existing.bookmakers then some existing
          else some { existing with
            bookmakers := existing.bookmakers ++ [q.bookmaker]
            bookmaker := String.intercalate ", " (existing.bookmakers ++ [q.bookmaker]) }
        else some existing

/-- Best-price folding of all quotes arriving for one logical team-prop
key, in order of arrival. -/
def foldTeamQuotes (sport game marketKey selection : String) (point : ℚ)
    (qs : List Quote) : Option TeamOpp :=
  qs.foldl (teamStep sport game marketKey selection point) none

/-- Processing of one quote against the `player_best_odds` entry for one
`opp_key`, from the player-prop loop of `get_sport_opportunities`
(src/app.py); same folding logic as the team loop with the player-prop
probability heuristic. -/
def playerStep (sport game player_name marketKey : String) (line : ℚ)
    (acc : Option PlayerOpp) (q : Quote) : Option PlayerOpp :=
  if q.price = 0 then acc
  else
    let implied := impliedProb q.price
    let calculated := playerCalculatedProb q.price
    let ev := (calculated - implied) * potentialPayout q.price
    match acc with
    | none => some
        { sport := sport
          player := player_name
          prop := titleCase (((marketKey.replace "player_" "").replace "_" " "))
          line := line
          odds := q.price
          implied_probability := roundTo 2 (implied * 100)
          calculated_probability := roundTo 2 (calculated * 100)
          expected_value := roundTo 3 ev
          game := game
          bookmaker := q.bookmaker
          bookmakers := [q.bookmaker] }
    | some existing =>
        if (0 < q.price ∧ existing.odds < q.price) ∨
            (q.price < 0 ∧ existing.odds < q.price) then
          some { existing with
            odds := q.price
            bookmaker := q.bookmaker
            bookmakers := [q.bookmaker]
            implied_probability := roundTo 2 (implied * 100)
            expected_value := roundTo 3 ((calculated - implied) * potentialPayout q.price) }
        else if q.price = existing.odds then
          if q.bookmaker ∈ existing.bookmakers then some existing
          else some { existing with
            bookmakers := existing.bookmakers ++ [q.bookmaker]
            bookmaker := String.intercalate ", " (existing.bookmakers ++ [q.bookmaker]) }
        else some existing

/-- Best-price folding of all quotes arriving for one logical player-prop
key, in order of arrival. -/
def foldPlayerQuotes (sport game player_name marketKey : String) (line : ℚ)
    (qs : List Quote) : Option PlayerOpp :=
  qs.foldl (playerStep sport game player_name marketKey line) none

/-- The bookmakers of the quotes in `qs` whose price is exactly `p`, in
order of arrival. -/
def booksAt (p : ℤ) (qs : List Quote) : List String :=
  (qs.filter (fun q => q.price = p)).map Quote.bookmaker

/-- Order-preserving deduplication: keeps the first occurrence of each
name.  "The distinct bookmakers, in order of arrival." -/
def distinctInOrder (bs : List String) : List String :=
  bs.foldl (fun acc b => if b ∈ acc then acc else acc ++ [b]) []

/-- Invariant of the team-prop best-price fold for one key after the
quotes `processed` have arrived: no record for an empty prefix; otherwise
the stored odds are the largest price seen so far, the bookmaker list is
the ordered deduplication of the bookmakers quoting exactly that price,
and the stored expected value is the one computed from the stored odds. -/
def TeamFoldInv (marketKey : String) (point : ℚ)
    (processed : List Quote) : Option TeamOpp → Prop
  | none => processed = []
  | some r =>
      (∃ q ∈ processed, q.price = r.odds) ∧
      (∀ q ∈ processed, q.price ≤ r.odds) ∧
      r.bookmakers = distinctInOrder (booksAt r.odds processed) ∧
      r.expected_value = roundTo 3
        ((teamCalculatedProb marketKey point r.odds - impliedProb r.odds) *
          potentialPayout r.odds)

/-- Expected-value consistency of the player-prop best-price fold: the
stored expected value is always the one recomputed from the stored odds
(every branch that changes the stored odds also recomputes the expected
value from the incoming quote, whose calculated probability is a function
of its price). -/
def PlayerEvInv : Option PlayerOpp → Prop
  | none => True
  | some r => r.expected_value = roundTo 3
      ((playerCalculatedProb r.odds - impliedProb r.odds) *
        potentialPayout r.odds)

end App


namespace OddsManager
/- ========================== src/odds_api.py ========================= -/

/-- `OddsManager.convert_american_to_decimal`.  (At `american_odds = 0`
the Python source takes the `else` branch and raises `ZeroDivisionError`;
all claims quantify over nonzero odds.) -/
def convert_american_to_decimal (american_odds : ℚ) : ℚ :=
  if 0 < american_odds then american_odds / 100 + 1
  else 100 / |american_odds| + 1

/-- `OddsManager.convert_american_to_probability`. -/
def convert_american_to_probability (american_odds : ℚ) : ℚ :=
  1 / convert_american_to_decimal american_odds

end OddsManager

namespace Py
/- Shared models of Python / numpy semantics used by the calculators. -/

/-- Python division: raises `ZeroDivisionError` on a zero denominator. -/
def pydiv (a b : ℚ) : Except Unit ℚ :=
  if b = 0 then .error () else .ok (a / b)

/-- Python's `l[-n:]` slice: the last `n` elements. -/
def lastN (n : ℕ) (l : List α) : List α :=
  l.drop (l.length - n)

/-- Python's `sum` over a list of booleans: the number of `True` entries. -/
def boolSum (l : List Bool) : ℚ :=
  ((l.filter (fun b => b)).length : ℚ)

/-- `np.var`: population variance (mean of squared deviations). -/
def npVar (l : List ℚ) : ℚ :=
  if l.length = 0 then 0
  else
    let n : ℚ := l.length
    let mean := l.sum / n
    ((l.map (fun x => (x - mean) ^ 2)).sum) / n

end Py

namespace Models
/- =========================== src/models.py =========================== -/

/-- `PlayerStats` dataclass (the `stats` dict is an association list of
stat-category name to numeric value). -/
structure PlayerStats where
  player_id : String
  player_name : String
  team_id : String
  position : String
  sport : String
  season : String
  games_played : ℤ
  stats : List (String × ℚ)
  recent_form : List ℚ
  season_average : ℚ
  home_average : ℚ
  away_average : ℚ
  vs_opponent_average : ℚ

end Models

namespace ProbabilityCalculator
/- ==================== src/probability_calculator.py ==================== -/

/-- `TeamStats` dataclass. -/
structure TeamStats where
  team_id : String
  wins : ℤ
  losses : ℤ
  win_percentage : ℚ
  home_record : ℤ × ℤ
  away_record : ℤ × ℤ
  recent_form : List Bool
  avg_points_for : ℚ
  avg_points_against : ℚ
  strength_of_schedule : ℚ
  conference : Option String := none
  ranking : Option ℤ := none
  is_home_team : Bool := true
deriving DecidableEq

/-- The `weather` dict optionally carried by a `GameContext`
(`temperature` and `wind_speed` entries; `none` models a missing key). -/
structure Weather where
  temperature : Option ℚ := none
  wind_speed : Option ℚ := none
deriving DecidableEq

/-- `GameContext` dataclass. -/
structure GameContext where
  home_team : String
  away_team : String
  home_team_stats : TeamStats
  away_team_stats : TeamStats
  sport : String := "ncaaf"
  weather : Option Weather := none
  injuries : Option (List String) := none
  rest_days : Option (ℤ × ℤ) := none
  rivalry_game : Bool := false
  conference_game : Bool := false
deriving DecidableEq

/-- The keys of the identity `stat_mapping` in
`_get_performance_stat_value`. -/
def stat_mapping_keys : List String :=
  ["passing_yards", "passing_tds", "rushing_yards", "rushing_tds",
   "receiving_yards", "receiving_tds", "receptions", "points", "rebounds",
   "assists", "steals", "blocks"]

/-- `_get_performance_stat_value`: map the prop type through the identity
`stat_mapping`, then look it up in the player's stats dict. -/
def get_performance_stat_value (ps : Models.PlayerStats)
    (prop_type : String) : Option ℚ :=
  if prop_type ∈ stat_mapping_keys then ps.stats.lookup prop_type
  else none

/-- The home/away scaling factor of
`_calculate_player_expected_performance` (source lines 208-211): the
guarded conditional expressions fall back to the neutral ratio 1.0 when
`season_average` is not positive. -/
def home_away_factor (ps : Models.PlayerStats) (ctx : GameContext) : ℚ :=
  if ctx.home_team_stats.is_home_team then
    if 0 < ps.season_average then ps.home_average / ps.season_average else 1
  else
    if 0 < ps.season_average then ps.away_average / ps.season_average else 1

/-- `_calculate_player_expected_performance`: blend of season average
(60%) and trailing-5 average (40%), scaled by the home/away factor. -/
def calculate_player_expected_performance (ps : Models.PlayerStats)
    (ctx : GameContext) (prop_type : String) : ℚ :=
  let base_value := ps.season_average
  let base_value :=
    if ps.recent_form ≠ [] then
      let recent_avg := (Py.lastN 5 ps.recent_form).sum /
        ((min ps.recent_form.length 5 : ℕ) : ℚ)
      base_value * (6/10) + recent_avg * (4/10)
    else base_value
  base_value * home_away_factor ps ctx

/-- `_calculate_player_performance_variance`: sample the trailing window
when at least 3 points exist, else fall back to `season_average * 0.2`;
sport/stat adjustments; floored at 1.0. -/
def calculate_player_performance_variance (ps : Models.PlayerStats)
    (prop_type : String) : ℚ :=
  let variance :=
    if 3 ≤ ps.recent_form.length then Py.npVar ps.recent_form
    else ps.season_average * (2/10)
  let variance :=
    if ps.sport = "ncaaf" then
      if prop_type ∈ ["passing_yards", "rushing_yards", "receiving_yards"]
      then variance * (12/10) else variance
    else if ps.sport = "ncaab" then
      if prop_type ∈ ["points", "rebounds", "assists"]
      then variance * (8/10) else variance
    else variance
  max variance 1

/-- `_get_conference_strength` (taking `Option` to model a `None`
argument missing the dict and yielding the 0.75 default). -/
def get_conference_strength (conference : Option String) : ℚ :=
  match conference with
  | some "SEC" => 1
  | some "Big Ten" => 95/100
  | some "ACC" => 90/100
  | some "Big 12" => 85/100
  | some "Pac-12" => 80/100
  | some "AAC" => 70/100
  | some "Mountain West" => 65/100
  | some "MAC" => 60/100
  | some "Sun Belt" => 55/100
  | some "C-USA" => 50/100
  | _ => 75/100

/-- Python's `s.split('_')[0]`. -/
def firstSplitToken (s : String) : String :=
  (s.splitOn "_").headD ""

/-- `_calculate_matchup_adjustment` for player props. -/
def calculate_matchup_adjustment (ps : Models.PlayerStats)
    (ctx : GameContext) (prop_type : String) : ℚ :=
  let adjustment : ℚ := 0
  let adjustment :=
    if ctx.sport = "ncaaf" then
      if prop_type = "passing_yards" then
        adjustment - ctx.away_team_stats.avg_points_against * (1/10)
      else if prop_type = "rushing_yards" then
        adjustment - ctx.away_team_stats.avg_points_against * (5/100)
      else adjustment
    else if ctx.sport = "ncaab" then
      if prop_type = "points" then
        adjustment - ctx.away_team_stats.avg_points_against * (2/100)
      else adjustment
    else adjustment
  if ctx.conference_game then
    adjustment + get_conference_strength (some (firstSplitToken ps.team_id)) * (1/10)
  else adjustment

/-- `_calculate_player_performance_confidence`. -/
def calculate_player_performance_confidence (ps : Models.PlayerStats)
    (prop_type : String) : ℚ :=
  let confidence : ℚ := 1/2
  let confidence :=
    if 10 ≤ ps.games_played then confidence + 2/10
    else if 5 ≤ ps.games_played then confidence + 1/10
    else confidence
  let confidence :=
    if 3 ≤ ps.recent_form.length then
      let variance := Py.npVar ps.recent_form
      let consistency_factor :=
        if 0 < ps.season_average then max 0 (1 - variance / ps.season_average)
        else 0
      confidence + consistency_factor * (3/10)
    else confidence
  min confidence 1

/-- Result dict of `calculate_player_performance_probability` (the
neutral early/error returns carry only the first three keys). -/
structure PlayerPerfResult where
  over_probability : ℚ
  under_probability : ℚ
  confidence : ℚ
  expected_value : Option ℚ := none
  matchup_adjustment : Option ℚ := none
deriving DecidableEq

/-- The `try` body of `calculate_player_performance_probability`
(`sqrt` models `np.sqrt`, `ncdf` models `_normal_cdf`, which wraps the
external `np.math.erf`). -/
def calculate_player_performance_probability_try (sqrt ncdf : ℚ → ℚ)
    (ps : Models.PlayerStats) (prop_type : String) (line : ℚ)
    (ctx : GameContext) : Except Unit PlayerPerfResult := do
  match get_performance_stat_value ps prop_type with
  | none =>
      pure { over_probability := 1/2, under_probability := 1/2, confidence := 0 }
  | some _ =>
      let expected_value := calculate_player_expected_performance ps ctx prop_type
      let variance := calculate_player_performance_variance ps prop_type
      let matchup_adjustment := calculate_matchup_adjustment ps ctx prop_type
      let expected_value := expected_value + matchup_adjustment
      let z_score ← Py.pydiv (line - expected_value) (sqrt variance)
      let over_probability := 1 - ncdf z_score
      pure { over_probability := over_probability
             under_probability := 1 - over_probability
             expected_value := some expected_value
             confidence := calculate_player_performance_confidence ps prop_type
             matchup_adjustment := some matchup_adjustment }

/-- `calculate_player_performance_probability`: the `try` body with the
neutral `except` fallback. -/
def calculate_player_performance_probability (sqrt ncdf : ℚ → ℚ)
    (ps : Models.PlayerStats) (prop_type : String) (line : ℚ)
    (ctx : GameContext) : PlayerPerfResult :=
  match calculate_player_performance_probability_try sqrt ncdf ps prop_type line ctx with
  | .ok r => r
  | .error _ => { over_probability := 1/2, under_probability := 1/2, confidence := 0 }

/-- `_extract_game_features` (rest-day entries appended; a present
`rest_days` tuple is truthy in Python even when it is `(0, 0)`). -/
def extract_game_features (ctx : GameContext) : List ℚ :=
  let hs := ctx.home_team_stats
  let aw := ctx.away_team_stats
  [hs.win_percentage,
   aw.win_percentage,
   (if 0 < hs.home_record.1 + hs.home_record.2 then
      (hs.home_record.1 : ℚ) / ((hs.home_record.1 : ℚ) + (hs.home_record.2 : ℚ))
    else 1/2),
   (if 0 < aw.away_record.1 + aw.away_record.2 then
      (aw.away_record.1 : ℚ) / ((aw.away_record.1 : ℚ) + (aw.away_record.2 : ℚ))
    else 1/2),
   Py.boolSum (Py.lastN 5 hs.recent_form) / 5,
   Py.boolSum (Py.lastN 5 aw.recent_form) / 5,
   hs.avg_points_for, aw.avg_points_for,
   hs.avg_points_against, aw.avg_points_against,
   hs.strength_of_schedule, aw.strength_of_schedule]
  ++ (match ctx.rest_days with
      | some rd => [(rd.1 : ℚ), (rd.2 : ℚ)]
      | none => [0, 0])

/-- Python truthiness of an `Optional[int]` ranking: present and nonzero. -/
def rankingTruthy : Option ℤ → Bool
  | none => false
  | some n => n ≠ 0

/-- `_calculate_weather_factor`. -/
def calculate_weather_factor (w : Weather) : ℚ :=
  if w.temperature.getD 70 < 40 then 2/100
  else if 15 < w.wind_speed.getD 0 then 1/100
  else 0

/-- `_apply_ncaa_factors`. -/
def apply_ncaa_factors (home_strength away_strength : ℚ)
    (ctx : GameContext) : ℚ × ℚ :=
  let home_field_advantage : ℚ :=
    if ctx.sport = "ncaaf" then 7/100
    else if ctx.sport = "ncaab" then 4/100
    else 5/100
  let home_strength := home_strength + home_field_advantage
  let home_strength :=
    if rankingTruthy ctx.home_team_stats.ranking ∧
        rankingTruthy ctx.away_team_stats.ranking then
      let ranking_diff := ctx.away_team_stats.ranking.getD 0 -
        ctx.home_team_stats.ranking.getD 0
      home_strength + (ranking_diff : ℚ) * (2/100)
    else home_strength
  let conference_strength :=
    if ctx.conference_game then
      get_conference_strength ctx.home_team_stats.conference
    else 0
  let home_strength :=
    if ctx.conference_game ∧ conference_strength ≠ 0 then
      home_strength + conference_strength * (1/100)
    else home_strength
  let away_strength :=
    if ctx.conference_game ∧ conference_strength ≠ 0 then
      away_strength + conference_strength * (1/100)
    else away_strength
  let home_strength :=
    if ctx.rivalry_game then home_strength + 3/100 else home_strength
  let home_strength :=
    if ctx.sport = "ncaaf" then
      match ctx.weather with
      | some w => home_strength + calculate_weather_factor w
      | none => home_strength
    else home_strength
  (home_strength, away_strength)

/-- `_calculate_statistical_probability`: the unguarded home/away record
divisions and the normalization can raise `ZeroDivisionError`. -/
def calculate_statistical_probability (ctx : GameContext) :
    Except Unit (ℚ × ℚ) := do
  let hs := ctx.home_team_stats
  let aw := ctx.away_team_stats
  let home_home_pct ← Py.pydiv (hs.home_record.1 : ℚ)
    ((hs.home_record.1 : ℚ) + (hs.home_record.2 : ℚ))
  let home_strength := hs.win_percentage * (4/10) + home_home_pct * (3/10) +
    Py.boolSum (Py.lastN 5 hs.recent_form) / 5 * (3/10)
  let away_away_pct ← Py.pydiv (aw.away_record.1 : ℚ)
    ((aw.away_record.1 : ℚ) + (aw.away_record.2 : ℚ))
  let away_strength := aw.win_percentage * (4/10) + away_away_pct * (3/10) +
    Py.boolSum (Py.lastN 5 aw.recent_form) / 5 * (3/10)
  let strengths := apply_ncaa_factors home_strength away_strength ctx
  let total_strength := strengths.1 + strengths.2
  let home_prob ← Py.pydiv strengths.1 total_strength
  let away_prob ← Py.pydiv strengths.2 total_strength
  pure (home_prob, away_prob)

/-- `_calculate_confidence` (`std` models `np.std`). -/
def calculate_confidence (std : List ℚ → ℚ) (features : List ℚ) : ℚ :=
  min (std features * (1/10)) 1

/-- Result dict of `calculate_game_outcome_probability`. -/
structure GameOutcomeResult where
  home_win_probability : ℚ
  away_win_probability : ℚ
  confidence : ℚ
deriving DecidableEq

/-- The `try` body of `calculate_game_outcome_probability`.  A freshly
constructed calculator has an empty `models` dict, and `train_models`
only ever stores keys of the form `f'{sport}_game_outcome'`, so the
`'game_outcome' in self.models` test is never true and the statistical
fallback always runs. -/
def calculate_game_outcome_probability_try (std : List ℚ → ℚ)
    (ctx : GameContext) : Except Unit GameOutcomeResult := do
  let features := extract_game_features ctx
  let probabilities ← calculate_statistical_probability ctx
  pure { home_win_probability := probabilities.1
         away_win_probability := probabilities.2
         confidence := calculate_confidence std features }

/-- `calculate_game_outcome_probability`: the `try` body with the neutral
`except` fallback. -/
def calculate_game_outcome_probability (std : List ℚ → ℚ)
    (ctx : GameContext) : GameOutcomeResult :=
  match calculate_game_outcome_probability_try std ctx with
  | .ok r => r
  | .error _ =>
      { home_win_probability := 1/2, away_win_probability := 1/2,
        confidence := 0 }

/-- `_adjust_for_spread`.  In the source,
`adjusted_home_stats = game_context.home_team_stats` merely aliases the
caller's object, so the `avg_points_for -= spread / 2` /
`+= spread / 2` updates mutate the caller's `TeamStats` in place; the
returned `GameContext` wraps those same mutated objects and silently
drops `sport` and the NCAA flags (they revert to dataclass defaults). -/
def adjust_for_spread (ctx : GameContext) (spread : ℚ) : GameContext :=
  let adjusted_home_stats := { ctx.home_team_stats with
    avg_points_for := ctx.home_team_stats.avg_points_for - spread / 2 }
  let adjusted_away_stats := { ctx.away_team_stats with
    avg_points_for := ctx.away_team_stats.avg_points_for + spread / 2 }
  { home_team := ctx.home_team
    away_team := ctx.away_team
    home_team_stats := adjusted_home_stats
    away_team_stats := adjusted_away_stats
    weather := ctx.weather
    injuries := ctx.injuries
    rest_days := ctx.rest_days }

/-- `_calculate_point_differential_statistical`. -/
def calculate_point_differential_statistical (sqrt ncdf : ℚ → ℚ)
    (ctx : GameContext) (spread : ℚ) : Except Unit ℚ := do
  let hs := ctx.home_team_stats
  let aw := ctx.away_team_stats
  let expected_margin := (hs.avg_points_for - hs.avg_points_against) -
    (aw.avg_points_for - aw.avg_points_against)
  let hv : ℚ × ℚ :=
    if ctx.sport = "ncaaf" then (35/10, 16)
    else if ctx.sport = "ncaab" then (25/10, 12)
    else (3, 14)
  let expected_margin := expected_margin + hv.1
  let expected_margin :=
    if ctx.conference_game then expected_margin + 5/10 else expected_margin
  let expected_margin :=
    if ctx.rivalry_game then expected_margin + 1 else expected_margin
  let z_score ← Py.pydiv (spread - expected_margin) (sqrt hv.2)
  pure (1 - ncdf z_score)

/-- Result dict of `calculate_point_differential_probability`. -/
structure PointDiffResult where
  home_covers_probability : ℚ
  away_covers_probability : ℚ
  confidence : ℚ
deriving DecidableEq

/-- `calculate_point_differential_probability`, with the heap effect made
explicit: the second component is the caller's `GameContext` after the
call.  `_adjust_for_spread` runs first and mutates the `TeamStats`
aliased by the caller's context; the statistical fallback (the
`'point_differential' in self.models` test is never true, as above) is
then evaluated on `game_context` — whose stats are already mutated. -/
def calculate_point_differential_probability (sqrt ncdf : ℚ → ℚ)
    (std : List ℚ → ℚ) (ctx : GameContext) (spread : ℚ) :
    PointDiffResult × GameContext :=
  let adjusted_context := adjust_for_spread ctx spread
  let mutated_context := { ctx with
    home_team_stats := adjusted_context.home_team_stats
    away_team_stats := adjusted_context.away_team_stats }
  let inner : Except Unit PointDiffResult := do
    let features := extract_game_features adjusted_context
    let probability ←
      calculate_point_differential_statistical sqrt ncdf mutated_context spread
    pure { home_covers_probability := probability
           away_covers_probability := 1 - probability
           confidence := calculate_confidence std features }
  (match inner with
   | .ok r => r
   | .error _ =>
      { home_covers_probability := 1/2, away_covers_probability := 1/2,
        confidence := 0 },
   mutated_context)

end ProbabilityCalculator

namespace FantasyProbCalc
/- ================ src/fantasy_probability_calculator.py ================ -/

/-- `TeamStats` dataclass of this module (note the defaults; a `None`
`recent_form` is replaced by `[]` in `__post_init__`). -/
structure TeamStats where
  team_id : String
  team_name : String
  wins : ℤ := 0
  losses : ℤ := 0
  win_percentage : ℚ := 1/2
  home_record : ℤ × ℤ := (0, 0)
  away_record : ℤ × ℤ := (0, 0)
  recent_form : List Bool := []
  avg_points_for : ℚ := 0
  avg_points_against : ℚ := 0
  is_home_team : Bool := true
deriving DecidableEq

/-- `GameContext` dataclass of this module. -/
structure GameContext where
  home_team : String
  away_team : String
  home_team_stats : TeamStats
  away_team_stats : TeamStats
  sport : String
  is_neutral_site : Bool := false
deriving DecidableEq

/-- `SPORT_STATS[...]["avg_points"]`, with the `.get(sport,
SPORT_STATS["nfl"])` fallback. -/
def sport_avg_points (sport : String) : ℚ :=
  if sport = "nfl" then 23
  else if sport = "nba" then 112
  else if sport = "nhl" then 28/10
  else if sport = "mlb" then 45/10
  else if sport = "ncaaf" then 28
  else if sport = "ncaam" then 72
  else 23

/-- `_calculate_team_strength`: win percentage blended with recent form,
the home/away split (guarded against empty records), and a normalized
point differential, clamped into [0, 1]. -/
def calculate_team_strength (team_stats : TeamStats) (sport : String)
    (is_home : Bool) : ℚ :=
  let strength := team_stats.win_percentage
  let strength :=
    if team_stats.recent_form ≠ [] then
      let recent_win_pct := Py.boolSum team_stats.recent_form /
        (team_stats.recent_form.length : ℚ)
      strength * (6/10) + recent_win_pct * (4/10)
    else strength
  let strength :=
    if is_home ∧ 0 < team_stats.home_record.1 + team_stats.home_record.2 then
      let home_pct := (team_stats.home_record.1 : ℚ) /
        ((team_stats.home_record.1 : ℚ) + (team_stats.home_record.2 : ℚ))
      strength * (7/10) + home_pct * (3/10)
    else if ¬ is_home ∧ 0 < team_stats.away_record.1 + team_stats.away_record.2 then
      let away_pct := (team_stats.away_record.1 : ℚ) /
        ((team_stats.away_record.1 : ℚ) + (team_stats.away_record.2 : ℚ))
      strength * (7/10) + away_pct * (3/10)
    else strength
  let point_diff := team_stats.avg_points_for - team_stats.avg_points_against
  let normalized_diff := point_diff / (sport_avg_points sport * 2)
  let strength := strength + normalized_diff * (2/10)
  max 0 (min 1 strength)

/-- `_calculate_confidence` of this module. -/
def calculate_confidence (home_stats away_stats : TeamStats) : ℚ :=
  let home_games := home_stats.wins + home_stats.losses
  let away_games := away_stats.wins + away_stats.losses
  if home_games = 0 ∨ away_games = 0 then 3/10
  else
    let avg_games : ℚ := ((home_games + away_games : ℤ) : ℚ) / 2
    min 1 (avg_games / 20)

/-- Result dict of `calculate_team_moneyline_probability` (the
zero-total early return carries no `confidence` key). -/
structure MoneylineResult where
  home_win_prob : ℚ
  away_win_prob : ℚ
  confidence : Option ℚ := none
deriving DecidableEq

/-- `calculate_team_moneyline_probability`: normalize the two team
strengths, with the guarded neutral return when the total is zero. -/
def calculate_team_moneyline_probability (ctx : GameContext) :
    MoneylineResult :=
  let home_stats := ctx.home_team_stats
  let away_stats := ctx.away_team_stats
  let home_strength := calculate_team_strength home_stats ctx.sport true
  let away_strength := calculate_team_strength away_stats ctx.sport false
  let total_strength := home_strength + away_strength
  if total_strength = 0 then
    { home_win_prob := 1/2, away_win_prob := 1/2 }
  else
    { home_win_prob := home_strength / total_strength
      away_win_prob := away_strength / total_strength
      confidence := some (calculate_confidence home_stats away_stats) }

end FantasyProbCalc

namespace App

/-- Condensed opportunity record for the aggregation layer: the sorting
in `get_opportunities` / `get_sport_opportunities` keys only on
`x.get('expected_value', 0)`; the remaining dict fields are opaque to the
ranking and condensed into `payload`. -/
structure Opportunity where
  expected_value : ℚ
  payload : String := ""
deriving DecidableEq

/-- `opportunities.sort(key=lambda x: ..., reverse=True)`: a stable sort
descending by expected value (Python's `list.sort` is stable; modelled by
the stable insertion sort). -/
def sortByEvDesc (l : List Opportunity) : List Opportunity :=
  l.insertionSort (fun a b => b.expected_value ≤ a.expected_value)

/-- The per-sport loop of `get_opportunities` (src/app.py): each sport's
processing is attempted, an exception is caught, logged and skipped
(`continue`); the aggregate is sorted descending by expected value and
truncated to the top 100. -/
def get_opportunities (fetch : String → Except String (List Opportunity))
    (sports : List String) : List Opportunity :=
  let opportunities := sports.foldl
    (fun acc sport =>
      match fetch sport with
      | .ok sport_opps => acc ++ sport_opps
      | .error _ => acc) []
  (sortByEvDesc opportunities).take 100

/-- The sports iterated by `get_opportunities`. -/
def all_sports : List String := ["nfl", "nba", "mlb", "nhl", "ncaaf", "ncaab"]

end App

/-- Concrete sample player stats (zero season average) used to
instantiate theorems. -/
def samplePlayerStats : Models.PlayerStats :=
  { player_id := "p1", player_name := "P", team_id := "DAL_x",
    position := "QB", sport := "nfl", season := "2024",
    games_played := 10, stats := [("passing_yards", 250)],
    recent_form := [200, 300, 250], season_average := 0,
    home_average := 0, away_average := 0, vs_opponent_average := 0 }

/-- Concrete sample team stats (zero home record) used to instantiate
theorems. -/
def sampleTeamStats : ProbabilityCalculator.TeamStats :=
  { team_id := "h", wins := 5, losses := 2, win_percentage := 7/10,
    home_record := (0, 0), away_record := (1, 1), recent_form := [true],
    avg_points_for := 25, avg_points_against := 20,
    strength_of_schedule := 1/2 }

/-- Concrete sample game context used to instantiate theorems. -/
def sampleGameContext : ProbabilityCalculator.GameContext :=
  { home_team := "H", away_team := "A", home_team_stats := sampleTeamStats,
    away_team_stats := sampleTeamStats }

/-- The NFL scenario of the spec: home team scoring 28.5 / allowing 20.2,
away team scoring 26.8 / allowing 22.1. -/
def sampleSpreadContext : ProbabilityCalculator.GameContext :=
  { home_team := "H", away_team := "A",
    home_team_stats := { sampleTeamStats with
      avg_points_for := 57/2, avg_points_against := 101/5,
      home_record := (4, 2) },
    away_team_stats := { sampleTeamStats with
      avg_points_for := 134/5, avg_points_against := 221/10,
      home_record := (3, 3) },
    sport := "nfl" }

namespace App

theorem impliedProb_pos {odds : ℤ} (h : odds ≠ 0) : 0 < impliedProb odds := by
  unfold impliedProb
  split_ifs with hpos
  · have h0 : (0:ℚ) < (odds:ℚ) := by exact_mod_cast hpos
    exact div_pos (by norm_num) (by linarith)
  · have hne : ((odds:ℚ)) ≠ 0 := Int.cast_ne_zero.mpr h
    have h1 : (0:ℚ) < |(odds : ℚ)| := abs_pos.mpr hne
    exact div_pos h1 (by linarith)

theorem impliedProb_nonneg (odds : ℤ) : 0 ≤ impliedProb odds := by
  unfold impliedProb
  split_ifs with hpos
  · have h0 : (0:ℚ) < (odds:ℚ) := by exact_mod_cast hpos
    exact div_nonneg (by norm_num) (by linarith)
  · exact div_nonneg (abs_nonneg _) (by positivity)

end App

namespace App

lemma booksAt_append (p : ℤ) (l : List Quote) (q : Quote) :
    booksAt p (l ++ [q])
      = booksAt p l ++ (if q.price = p then [q.bookmaker] else []) := by
  by_cases h : q.price = p <;>
    simp [booksAt, List.filter_append, h]

lemma booksAt_eq_nil {p : ℤ} {l : List Quote} (h : ∀ q ∈ l, q.price < p) :
    booksAt p l = [] := by
  have : ∀ q ∈ l, ¬ (q.price = p) := fun q hq => ne_of_lt (h q hq)
  simp only [booksAt, List.map_eq_nil_iff]
  rw [List.filter_eq_nil_iff]
  intro q hq
  simpa using this q hq

lemma distinctInOrder_append (l : List String) (b : String) :
    distinctInOrder (l ++ [b])
      = if b ∈ distinctInOrder l then distinctInOrder l
        else distinctInOrder l ++ [b] := by
  simp [distinctInOrder, List.foldl_append]

lemma teamStep_inv (sport game mk sel : String) (pt : ℚ)
    {processed : List Quote} {acc : Option TeamOpp} {q : Quote}
    (hq : q.price ≠ 0) (h : TeamFoldInv mk pt processed acc) :
    TeamFoldInv mk pt (processed ++ [q])
      (teamStep sport game mk sel pt acc q) := by
  cases acc with
  | none =>
    have hp : processed = [] := h
    subst hp
    simp only [teamStep, if_neg hq, List.nil_append]
    refine ⟨⟨q, by simp, rfl⟩, by simp, ?_, rfl⟩
    simp [booksAt, distinctInOrder, List.filter]
  | some r =>
    obtain ⟨⟨qm, hqm, hqmp⟩, hmax, hbooks, hev⟩ := h
    simp only [teamStep, if_neg hq]
    by_cases hb : (0 < q.price ∧ r.odds < q.price) ∨
        (q.price < 0 ∧ r.odds < q.price)
    · have hgt : r.odds < q.price := by rcases hb with ⟨_, h⟩ | ⟨_, h⟩ <;> exact h
      rw [if_pos hb]
      refine ⟨⟨q, by simp, rfl⟩, ?_, ?_, rfl⟩
      · intro q' hq'
        rcases List.mem_append.mp hq' with h' | h'
        · exact le_of_lt (lt_of_le_of_lt (hmax q' h') hgt)
        · simp only [List.mem_singleton] at h'
          subst h'
          exact le_refl _
      · have hnil : booksAt q.price processed = [] :=
          booksAt_eq_nil (fun q' hq' => lt_of_le_of_lt (hmax q' hq') hgt)
        rw [booksAt_append, if_pos rfl, hnil]
        simp [distinctInOrder]
    · by_cases he : q.price = r.odds
      · rw [if_neg hb, if_pos he]
        have hbooksq : booksAt r.odds (processed ++ [q])
            = booksAt r.odds processed ++ [q.bookmaker] := by
          rw [booksAt_append, if_pos he]
        by_cases hm : q.bookmaker ∈ r.bookmakers
        · rw [if_pos hm]
          refine ⟨⟨qm, by simp [hqm], hqmp⟩, ?_, ?_, hev⟩
          · intro q' hq'
            rcases List.mem_append.mp hq' with h' | h'
            · exact hmax q' h'
            · simp only [List.mem_singleton] at h'
              subst h'
              exact le_of_eq he
          · rw [hbooksq, distinctInOrder_append, if_pos (hbooks ▸ hm), hbooks]
        · rw [if_neg hm]
          refine ⟨⟨qm, by simp [hqm], hqmp⟩, ?_, ?_, hev⟩
          · intro q' hq'
            rcases List.mem_append.mp hq' with h' | h'
            · exact hmax q' h'
            · simp only [List.mem_singleton] at h'
              subst h'
              exact le_of_eq he
          · rw [hbooksq, distinctInOrder_append, if_neg (hbooks ▸ hm), hbooks]
      · rw [if_neg hb, if_neg he]
        have hlt : q.price < r.odds := by
          push_neg at hb
          omega
        refine ⟨⟨qm, by simp [hqm], hqmp⟩, ?_, ?_, hev⟩
        · intro q' hq'
          rcases List.mem_append.mp hq' with h' | h'
          · exact hmax q' h'
          · simp only [List.mem_singleton] at h'
            subst h'
            exact le_of_lt hlt
        · rw [booksAt_append, if_neg he]
          simpa using hbooks

lemma teamFold_inv (sport game mk sel : String) (pt : ℚ) (qs : List Quote)
    (hqs : ∀ q ∈ qs, q.price ≠ 0) :
    TeamFoldInv mk pt qs (foldTeamQuotes sport game mk sel pt qs) := by
  induction qs using List.reverseRecOn with
  | nil => rfl
  | append_singleton l q ih =>
    rw [foldTeamQuotes, List.foldl_append]
    exact teamStep_inv sport game mk sel pt (hqs q (by simp))
      (ih (fun q' hq' => hqs q' (by simp [hq'])))

lemma playerStep_ev (sport game pl mk : String) (line : ℚ)
    {acc : Option PlayerOpp} (q : Quote) (h : PlayerEvInv acc) :
    PlayerEvInv (playerStep sport game pl mk line acc q) := by
  by_cases hq : q.price = 0
  · simpa [playerStep, hq] using h
  · cases acc with
    | none => simp [playerStep, hq, PlayerEvInv]
    | some r =>
      simp only [playerStep, if_neg hq]
      by_cases hb : (0 < q.price ∧ r.odds < q.price) ∨
          (q.price < 0 ∧ r.odds < q.price)
      · rw [if_pos hb]
        rfl
      · rw [if_neg hb]
        by_cases he : q.price = r.odds
        · rw [if_pos he]
          by_cases hm : q.bookmaker ∈ r.bookmakers
          · rw [if_pos hm]; exact h
          · rw [if_neg hm]; exact h
        · rw [if_neg he]; exact h

lemma playerFold_ev (sport game pl mk : String) (line : ℚ)
    (qs : List Quote) :
    PlayerEvInv (foldPlayerQuotes sport game pl mk line qs) := by
  rw [foldPlayerQuotes]
  have : ∀ acc, PlayerEvInv acc →
      PlayerEvInv (qs.foldl (playerStep sport game pl mk line) acc) := by
    induction qs with
    | nil => exact fun acc h => h
    | cons q qs ih =>
      intro acc h
      exact ih _ (playerStep_ev sport game pl mk line q h)
  exact this none trivial

end App

/-- C1 (counterexample to the claim as stated): the heuristic policy does
not pull every quote's probability toward 0.5.  For the h2h quote with
odds +300 the implied probability is 1/4 and the calculated probability is
49/200 = 0.245, which is farther from 0.5 than 1/4 is. -/
theorem C1_toward_half_counterexample :
    |App.teamCalculatedProb "h2h" 0 300 - 1/2| > |App.impliedProb 300 - 1/2| := by
  have h1 : App.teamCalculatedProb "h2h" 0 300 = 49/200 := by
    norm_num [App.teamCalculatedProb, App.impliedProb]
  have h2 : App.impliedProb 300 = 1/4 := by norm_num [App.impliedProb]
  rw [h1, h2, show (49:ℚ)/200 - 1/2 = -(51/200) by norm_num,
    show (1:ℚ)/4 - 1/2 = -(1/4) by norm_num, abs_neg, abs_neg,
    abs_of_pos (by norm_num : (0:ℚ) < 51/200),
    abs_of_pos (by norm_num : (0:ℚ) < 1/4)]
  norm_num

/-- C1 (amended): for every quote processed by the heuristic policy the
calculated probability is the implied probability times a market-dependent
factor at most 1 — so it is pulled downward, toward 0.5 only when the
implied probability exceeds 0.5.  The moneyline factor is 0.98 for
`|odds| > 200` and 0.99 otherwise; the player-prop factor is 0.97 for
`|odds| < 150` and 0.96 otherwise; the player-prop shrink is strictly
larger than any team-market shrink at the same odds. -/
theorem C1_heuristic_shrink_amended (marketKey : String) (point : ℚ) (odds : ℤ)
    (h : odds ≠ 0) :
    App.teamCalculatedProb marketKey point odds ≤ App.impliedProb odds ∧
    App.playerCalculatedProb odds < App.impliedProb odds ∧
    App.playerCalculatedProb odds < App.teamCalculatedProb marketKey point odds ∧
    App.teamCalculatedProb "h2h" point odds
      = App.impliedProb odds * (if 200 < |odds| then 98/100 else 99/100) ∧
    App.playerCalculatedProb odds
      = App.impliedProb odds * (if |odds| < 150 then 97/100 else 96/100) := by
  have hpos : 0 < App.impliedProb odds := App.impliedProb_pos h
  have hteam : ∃ f : ℚ, (98/100 ≤ f ∧ f ≤ 1) ∧
      App.teamCalculatedProb marketKey point odds = App.impliedProb odds * f := by
    unfold App.teamCalculatedProb
    split_ifs <;>
      first
        | exact ⟨98/100, by norm_num, rfl⟩
        | exact ⟨99/100, by norm_num, rfl⟩
        | exact ⟨985/1000, by norm_num, rfl⟩
        | exact ⟨1, by norm_num, (mul_one _).symm⟩
  have hplayer : ∃ f : ℚ, (f ≤ 97/100) ∧
      App.playerCalculatedProb odds = App.impliedProb odds * f := by
    unfold App.playerCalculatedProb
    split_ifs
    · exact ⟨97/100, le_refl _, rfl⟩
    · exact ⟨96/100, by norm_num, rfl⟩
  obtain ⟨ft, ⟨hft1, hft2⟩, hteq⟩ := hteam
  obtain ⟨fp, hfp, hpeq⟩ := hplayer
  refine ⟨?_, ?_, ?_, ?_, ?_⟩
  · rw [hteq]
    exact mul_le_of_le_one_right (le_of_lt hpos) hft2
  · rw [hpeq]
    calc App.impliedProb odds * fp ≤ App.impliedProb odds * (97/100) :=
          mul_le_mul_of_nonneg_left hfp (le_of_lt hpos)
      _ < App.impliedProb odds * 1 := by
          exact mul_lt_mul_of_pos_left (by norm_num) hpos
      _ = App.impliedProb odds := mul_one _
  · rw [hpeq, hteq]
    calc App.impliedProb odds * fp ≤ App.impliedProb odds * (97/100) :=
          mul_le_mul_of_nonneg_left hfp (le_of_lt hpos)
      _ < App.impliedProb odds * (98/100) :=
          mul_lt_mul_of_pos_left (by norm_num) hpos
      _ ≤ App.impliedProb odds * ft :=
          mul_le_mul_of_nonneg_left hft1 (le_of_lt hpos)
  · unfold App.teamCalculatedProb
    norm_num
  · unfold App.playerCalculatedProb
    norm_num

/-- C1 witness: the amended theorem instantiated at a concrete moneyline
quote of +150. -/
theorem C1_heuristic_shrink_amended_witness :
    App.teamCalculatedProb "h2h" 0 150 ≤ App.impliedProb 150 ∧
    App.playerCalculatedProb 150 < App.impliedProb 150 ∧
    App.playerCalculatedProb 150 < App.teamCalculatedProb "h2h" 0 150 ∧
    App.teamCalculatedProb "h2h" 0 150
      = App.impliedProb 150 * (if 200 < |(150:ℤ)| then 98/100 else 99/100) ∧
    App.playerCalculatedProb 150
      = App.impliedProb 150 * (if |(150:ℤ)| < 150 then 97/100 else 96/100) :=
  C1_heuristic_shrink_amended "h2h" 0 150 (by decide)

/-- C2 (counterexample to the claim as stated): the claim quantifies over
every nonzero American odds value, but at `o = 50` (a positive quote) the
computed probability is 2/3, which is not below 0.5. -/
theorem C2_positive_odds_counterexample :
    (0:ℚ) < 50 ∧ ¬ (OddsManager.convert_american_to_probability 50 < 1/2) := by
  norm_num [OddsManager.convert_american_to_probability,
    OddsManager.convert_american_to_decimal]

/-- C2 (amended): for every nonzero odds value the probability
`1 / convert_american_to_decimal o` lies strictly between 0 and 1, and the
equivalence `o > 0 ↔ probability < 0.5` holds for quotes with `|o| > 100`
(at `|o| ≤ 100` it can fail: `±100` both give exactly 0.5, and positive
quotes below 100 give probabilities above 0.5).  `o = 150` gives 0.4 and
`o = -200` gives 2/3. -/
theorem C2_probability_amended (o : ℚ) (h : o ≠ 0) :
    OddsManager.convert_american_to_probability o
        = 1 / OddsManager.convert_american_to_decimal o ∧
    (0 < OddsManager.convert_american_to_probability o ∧
      OddsManager.convert_american_to_probability o < 1) ∧
    (100 < |o| →
      (0 < o ↔ OddsManager.convert_american_to_probability o < 1/2)) ∧
    OddsManager.convert_american_to_probability 150 = 2/5 ∧
    OddsManager.convert_american_to_probability (-200) = 2/3 := by
  refine ⟨rfl, ?_, ?_, ?_, ?_⟩
  · unfold OddsManager.convert_american_to_probability
      OddsManager.convert_american_to_decimal
    split_ifs with hpos
    · constructor
      · positivity
      · rw [div_lt_one (by linarith)]
        linarith
    · have habs : 0 < |o| := abs_pos.mpr h
      constructor
      · positivity
      · rw [div_lt_one (by positivity)]
        have : 0 < 100 / |o| := by positivity
        linarith
  · intro hbig
    unfold OddsManager.convert_american_to_probability
      OddsManager.convert_american_to_decimal
    split_ifs with hpos
    · have ho : 100 < o := by
        rwa [abs_of_pos hpos] at hbig
      simp only [hpos, true_iff]
      rw [div_lt_div_iff₀ (by linarith) (by norm_num)]
      linarith
    · have hneg : o < 0 := lt_of_le_of_ne (not_lt.mp hpos) h
      have ho : 100 < -o := by
        rwa [abs_of_neg hneg] at hbig
      have habs : 0 < |o| := abs_pos.mpr h
      have hlt : 100 / |o| < 1 := by
        rw [div_lt_one habs, abs_of_neg hneg]
        exact ho
      simp only [hpos, false_iff, not_lt]
      rw [le_div_iff₀ (by positivity)]
      linarith
  · norm_num [OddsManager.convert_american_to_probability,
      OddsManager.convert_american_to_decimal]
  · norm_num [OddsManager.convert_american_to_probability,
      OddsManager.convert_american_to_decimal]

/-- C2 witness: the amended theorem instantiated at `o = 150`. -/
theorem C2_probability_amended_witness :
    OddsManager.convert_american_to_probability 150
        = 1 / OddsManager.convert_american_to_decimal 150 ∧
    (0 < OddsManager.convert_american_to_probability 150 ∧
      OddsManager.convert_american_to_probability 150 < 1) ∧
    (100 < |(150:ℚ)| →
      (0 < (150:ℚ) ↔ OddsManager.convert_american_to_probability 150 < 1/2)) ∧
    OddsManager.convert_american_to_probability 150 = 2/5 ∧
    OddsManager.convert_american_to_probability (-200) = 2/3 :=
  C2_probability_amended 150 (by norm_num)

/-- C3 (counterexample to the claim as stated): the opportunity record
produced for a single h2h quote of +150 stores calculated probability
39.6% and expected value -0.006, but the claimed formula
`p * payout - (1 - p)` evaluates to -0.01 at p = 0.396, payout = 1.5. -/
theorem C3_ev_formula_counterexample :
    (App.foldTeamQuotes "nfl" "Away @ Home" "h2h" "Home" 0
        [⟨150, "BookA"⟩]).map
      (fun r => (r.expected_value, r.calculated_probability, r.odds))
      = some (-3/500, 198/5, 150) ∧
    (-3/500 : ℚ) ≠ (198/5/100) * App.potentialPayout 150 - (1 - 198/5/100) := by
  constructor
  · simp only [App.foldTeamQuotes, List.foldl, App.teamStep]
    norm_num [App.impliedProb, App.teamCalculatedProb, App.potentialPayout,
      App.roundTo, App.roundHalfEven]
  · norm_num [App.potentialPayout]

/-- C3 (amended): every record produced by the best-price folds stores
`expected_value = round((calculated_prob - implied_prob) * payout, 3)`
computed from its stored odds — the difference-of-probabilities formula,
not `p * payout - (1 - p)`.  (The `FantasyValueAnalyzer` path instead
computes `true_prob * odds - (1 - true_prob)` with the raw American odds
value; at runtime that path emits no records at all, since it calls a
probability-conversion method its calculator does not define and the
resulting exception is caught and skipped.) -/
theorem C3_ev_formula_amended
    (sport game marketKey selection player_name playerMarketKey : String)
    (point line : ℚ) (qs ps : List App.Quote)
    (hqs : ∀ q ∈ qs, q.price ≠ 0) :
    (∀ r, App.foldTeamQuotes sport game marketKey selection point qs = some r →
      r.expected_value = App.roundTo 3
        ((App.teamCalculatedProb marketKey point r.odds - App.impliedProb r.odds) *
          App.potentialPayout r.odds)) ∧
    (∀ r, App.foldPlayerQuotes sport game player_name playerMarketKey line ps = some r →
      r.expected_value = App.roundTo 3
        ((App.playerCalculatedProb r.odds - App.impliedProb r.odds) *
          App.potentialPayout r.odds)) := by
  constructor
  · intro r hr
    have h := App.teamFold_inv sport game marketKey selection point qs hqs
    rw [hr] at h
    exact h.2.2.2
  · intro r hr
    have h := App.playerFold_ev sport game player_name playerMarketKey line ps
    rw [hr] at h
    exact h

/-- C3 witness: the amended theorem instantiated on concrete one-quote
folds, evaluated. -/
theorem C3_ev_formula_amended_witness :
    ((∀ r, App.foldTeamQuotes "nfl" "g" "h2h" "s" 0 [⟨150, "BookA"⟩] = some r →
      r.expected_value = App.roundTo 3
        ((App.teamCalculatedProb "h2h" 0 r.odds - App.impliedProb r.odds) *
          App.potentialPayout r.odds)) ∧
    (∀ r, App.foldPlayerQuotes "nfl" "g" "p" "player_points" 20.5
        [⟨-110, "BookA"⟩] = some r →
      r.expected_value = App.roundTo 3
        ((App.playerCalculatedProb r.odds - App.impliedProb r.odds) *
          App.potentialPayout r.odds))) ∧
    App.foldTeamQuotes "nfl" "g" "h2h" "s" 0 [⟨150, "BookA"⟩] ≠ none :=
  ⟨C3_ev_formula_amended "nfl" "g" "h2h" "s" "p" "player_points" 0 20.5
      [⟨150, "BookA"⟩] [⟨-110, "BookA"⟩] (by decide),
   by simp [App.foldTeamQuotes, App.teamStep]⟩

/-- C4: throughout the best-price fold for one key, the stored odds are
the maximum American-odds value seen so far and the bookmaker list is
exactly the ordered deduplication of the bookmakers that offered that
best price; folding [(+110, BookA), (+120, BookB), (+120, BookC)] yields
+120 with ["BookB", "BookC"]. -/
theorem C4_best_price_invariant (sport game marketKey selection : String)
    (point : ℚ) (qs : List App.Quote) (hqs : ∀ q ∈ qs, q.price ≠ 0) :
    ((qs ≠ [] → App.foldTeamQuotes sport game marketKey selection point qs ≠ none) ∧
     ∀ r, App.foldTeamQuotes sport game marketKey selection point qs = some r →
      ((∃ q ∈ qs, q.price = r.odds) ∧ (∀ q ∈ qs, q.price ≤ r.odds)) ∧
      r.bookmakers = App.distinctInOrder (App.booksAt r.odds qs)) ∧
    (App.foldTeamQuotes "nfl" "A @ H" "h2h" "H" 0
        [⟨110, "BookA"⟩, ⟨120, "BookB"⟩, ⟨120, "BookC"⟩]).map
      (fun r => (r.odds, r.bookmakers)) = some (120, ["BookB", "BookC"]) := by
  have hinv := App.teamFold_inv sport game marketKey selection point qs hqs
  refine ⟨⟨?_, ?_⟩, ?_⟩
  · intro hne hnone
    rw [hnone] at hinv
    exact hne hinv
  · intro r hr
    rw [hr] at hinv
    exact ⟨⟨hinv.1, hinv.2.1⟩, hinv.2.2.1⟩
  · simp only [App.foldTeamQuotes, List.foldl, App.teamStep]
    norm_num
    simp

/-- C4 witness: the invariant theorem instantiated on the concrete quote
list from the claim. -/
theorem C4_best_price_invariant_witness :
    ((([⟨110, "BookA"⟩, ⟨120, "BookB"⟩, ⟨120, "BookC"⟩] : List App.Quote) ≠ [] →
      App.foldTeamQuotes "nfl" "A @ H" "h2h" "H" 0
        [⟨110, "BookA"⟩, ⟨120, "BookB"⟩, ⟨120, "BookC"⟩] ≠ none) ∧
     ∀ r, App.foldTeamQuotes "nfl" "A @ H" "h2h" "H" 0
        [⟨110, "BookA"⟩, ⟨120, "BookB"⟩, ⟨120, "BookC"⟩] = some r →
      ((∃ q ∈ ([⟨110, "BookA"⟩, ⟨120, "BookB"⟩, ⟨120, "BookC"⟩] : List App.Quote),
          q.price = r.odds) ∧
        (∀ q ∈ ([⟨110, "BookA"⟩, ⟨120, "BookB"⟩, ⟨120, "BookC"⟩] : List App.Quote),
          q.price ≤ r.odds)) ∧
      r.bookmakers = App.distinctInOrder (App.booksAt r.odds
        [⟨110, "BookA"⟩, ⟨120, "BookB"⟩, ⟨120, "BookC"⟩])) ∧
    (App.foldTeamQuotes "nfl" "A @ H" "h2h" "H" 0
        [⟨110, "BookA"⟩, ⟨120, "BookB"⟩, ⟨120, "BookC"⟩]).map
      (fun r => (r.odds, r.bookmakers)) = some (120, ["BookB", "BookC"]) :=
  C4_best_price_invariant "nfl" "A @ H" "h2h" "H" 0
    [⟨110, "BookA"⟩, ⟨120, "BookB"⟩, ⟨120, "BookC"⟩] (by decide)

/-- C5 (counterexample to the claim as stated): folding
[(-300, BookA), (+300, BookB)] for one h2h key, the better +300 quote
replaces the -300 one; the stored calculated probability stays at the
value 73.5% computed from the first quote, but the recomputed expected
value is -0.015 — computed from the incoming quote's own fresh calculated
probability — and differs from the value the claim predicts from the
previously computed calculated probability (which is 1.455). -/
theorem C5_recompute_counterexample :
    (App.foldTeamQuotes "nfl" "g" "h2h" "s" 0
        [⟨-300, "BookA"⟩, ⟨300, "BookB"⟩]).map
      (fun r => (r.odds, r.expected_value, r.calculated_probability))
      = some (300, -3/200, 147/2) ∧
    (-3/200 : ℚ) ≠ App.roundTo 3
      ((App.teamCalculatedProb "h2h" 0 (-300) - App.impliedProb 300) *
        App.potentialPayout 300) := by
  constructor
  · simp only [App.foldTeamQuotes, List.foldl, App.teamStep]
    norm_num [App.impliedProb, App.teamCalculatedProb, App.potentialPayout,
      App.roundTo, App.roundHalfEven]
  · norm_num [App.impliedProb, App.teamCalculatedProb, App.potentialPayout,
      App.roundTo, App.roundHalfEven]

/-- C5 (amended): on a strictly better price the fold replaces the stored
odds and bookmaker, resets the bookmaker list to the new single book, and
recomputes the implied probability and the expected value from the new
price; the stored calculated-probability field is left unchanged, but the
recomputed expected value uses the incoming quote's own freshly computed
calculated probability (a function of the new price), not the previously
stored one; all other fields are unchanged. -/
theorem C5_better_price_amended (sport game marketKey selection : String)
    (point : ℚ) (ex : App.TeamOpp) (q : App.Quote)
    (hbetter : (0 < q.price ∧ ex.odds < q.price) ∨
      (q.price < 0 ∧ ex.odds < q.price)) :
    App.teamStep sport game marketKey selection point (some ex) q = some
      { ex with
        odds := q.price
        bookmaker := q.bookmaker
        bookmakers := [q.bookmaker]
        implied_probability := App.roundTo 2 (App.impliedProb q.price * 100)
        expected_value := App.roundTo 3
          ((App.teamCalculatedProb marketKey point q.price -
              App.impliedProb q.price) * App.potentialPayout q.price) } := by
  have hq : q.price ≠ 0 := by
    rcases hbetter with ⟨h, _⟩ | ⟨h, _⟩ <;> omega
  simp only [App.teamStep, if_neg hq, if_pos hbetter]

/-- C5 witness: the amended single-step theorem applied to a concrete
record at odds +110 and an incoming better quote of +120. -/
theorem C5_better_price_amended_witness :
    App.teamStep "nfl" "g" "h2h" "s" 0
      (some { sport := "nfl", selection := "s", prop := "H2H", line := none,
              odds := 110, implied_probability := 4762/100,
              calculated_probability := 4714/100, expected_value := -5/1000,
              game := "g", bookmaker := "BookA", bookmakers := ["BookA"] })
      ⟨120, "BookB"⟩ = some
      { sport := "nfl", selection := "s", prop := "H2H", line := none,
        odds := 120, implied_probability := App.roundTo 2 (App.impliedProb 120 * 100),
        calculated_probability := 4714/100,
        expected_value := App.roundTo 3
          ((App.teamCalculatedProb "h2h" 0 120 - App.impliedProb 120) *
            App.potentialPayout 120),
        game := "g", bookmaker := "BookB", bookmakers := ["BookB"] } :=
  C5_better_price_amended "nfl" "g" "h2h" "s" 0 _ _ (by norm_num)

/-- C7: a raised error while fetching/processing one sport does not abort
the aggregation — the failing sport contributes nothing and the others'
opportunities are returned, sorted (and capped); in particular if "nhl"
raises, aggregating over ["nfl", "nhl"] returns nfl's opportunities. -/
theorem C7_failure_isolation
    (fetch : String → Except String (List App.Opportunity))
    (l : List App.Opportunity) (e : String)
    (hnfl : fetch "nfl" = .ok l) (hnhl : fetch "nhl" = .error e) :
    App.get_opportunities fetch ["nfl", "nhl"]
      = (App.sortByEvDesc l).take 100 := by
  simp [App.get_opportunities, hnfl, hnhl]

/-- C7 witness: the isolation theorem applied to a concrete fetch whose
"nhl" branch raises. -/
theorem C7_failure_isolation_witness :
    App.get_opportunities
      (fun s => if s = "nfl" then .ok [⟨1/10, "nfl opp"⟩] else .error "boom")
      ["nfl", "nhl"]
      = (App.sortByEvDesc [⟨1/10, "nfl opp"⟩]).take 100 :=
  C7_failure_isolation
    (fun s => if s = "nfl" then .ok [⟨1/10, "nfl opp"⟩] else .error "boom")
    [⟨1/10, "nfl opp"⟩] "boom" (by simp) (by simp)

/-- C8: the aggregated feed is sorted descending by expected value and
truncated to the fixed cap of 100; sorting the expected values
[0.02, -0.01, 0.08, 0.05] descending and capping at 3 puts the 0.08
entry first and leaves exactly 3 entries. -/
theorem C8_ranking_order :
    (∀ (fetch : String → Except String (List App.Opportunity))
        (sports : List String),
      List.Sorted (fun a b : App.Opportunity =>
          b.expected_value ≤ a.expected_value)
        (App.get_opportunities fetch sports) ∧
      (App.get_opportunities fetch sports).length ≤ 100) ∧
    ((App.sortByEvDesc
        [⟨2/100, "a"⟩, ⟨-1/100, "b"⟩, ⟨8/100, "c"⟩, ⟨5/100, "d"⟩]).take 3).head?
      = some ⟨8/100, "c"⟩ ∧
    ((App.sortByEvDesc
        [⟨2/100, "a"⟩, ⟨-1/100, "b"⟩, ⟨8/100, "c"⟩, ⟨5/100, "d"⟩]).take 3).length
      = 3 := by
  have hTotal : IsTotal App.Opportunity
      (fun a b => b.expected_value ≤ a.expected_value) :=
    ⟨fun a b => le_total b.expected_value a.expected_value⟩
  have hTrans : IsTrans App.Opportunity
      (fun a b => b.expected_value ≤ a.expected_value) :=
    ⟨fun _ _ _ h1 h2 => le_trans h2 h1⟩
  refine ⟨?_, ?_, ?_⟩
  · intro fetch sports
    constructor
    · exact List.Pairwise.sublist (List.take_sublist _ _)
        (List.sorted_insertionSort _ _)
    · exact List.length_take_le _ _
  · norm_num [App.sortByEvDesc, List.insertionSort, List.orderedInsert]
  · norm_num [App.sortByEvDesc, List.insertionSort, List.orderedInsert]

namespace ProbabilityCalculator

lemma pydiv_ok {a b q : ℚ} (h : Py.pydiv a b = .ok q) : b ≠ 0 ∧ q = a / b := by
  unfold Py.pydiv at h
  by_cases hb : b = 0
  · rw [if_pos hb] at h
    exact absurd h (by simp)
  · rw [if_neg hb] at h
    refine ⟨hb, ?_⟩
    injection h with h
    exact h.symm

lemma statistical_probability_sum {ctx : GameContext} {p : ℚ × ℚ}
    (h : calculate_statistical_probability ctx = .ok p) :
    p.1 + p.2 = 1 := by
  unfold calculate_statistical_probability at h
  simp only [bind, Except.bind] at h
  split at h
  · exact absurd h (by simp)
  · split at h
    · exact absurd h (by simp)
    · split at h
      · exact absurd h (by simp)
      · rename_i v1 heq1 v2 heq2 v3 heq3
        split at h
        · exact absurd h (by simp)
        · rename_i v4 heq4
          simp only [pure, Except.pure, Except.ok.injEq] at h
          subst h
          obtain ⟨hne, hv3⟩ := pydiv_ok heq3
          obtain ⟨-, hv4⟩ := pydiv_ok heq4
          simp only [hv3, hv4]
          rw [div_add_div_same, div_self hne]

end ProbabilityCalculator

/-- C10: both moneyline/game-outcome entry points return home and away
win probabilities summing exactly to 1 — the statistical path normalizes
two strengths by their sum, the guarded/error branches return 0.5 and
0.5. -/
theorem C10_win_probabilities_sum_to_one :
    (∀ (std : List ℚ → ℚ) (ctx : ProbabilityCalculator.GameContext),
      (ProbabilityCalculator.calculate_game_outcome_probability std
          ctx).home_win_probability +
        (ProbabilityCalculator.calculate_game_outcome_probability std
          ctx).away_win_probability = 1) ∧
    (∀ ctx : FantasyProbCalc.GameContext,
      (FantasyProbCalc.calculate_team_moneyline_probability
          ctx).home_win_prob +
        (FantasyProbCalc.calculate_team_moneyline_probability
          ctx).away_win_prob = 1) := by
  constructor
  · intro std ctx
    unfold ProbabilityCalculator.calculate_game_outcome_probability
    cases htry : ProbabilityCalculator.calculate_game_outcome_probability_try
        std ctx with
    | error e => norm_num
    | ok r =>
      unfold ProbabilityCalculator.calculate_game_outcome_probability_try
        at htry
      simp only [bind, Except.bind] at htry
      split at htry
      · exact absurd htry (by simp)
      · rename_i p heq
        simp only [pure, Except.pure, Except.ok.injEq] at htry
        subst htry
        simpa using ProbabilityCalculator.statistical_probability_sum heq
  · intro ctx
    unfold FantasyProbCalc.calculate_team_moneyline_probability
    set hs := FantasyProbCalc.calculate_team_strength
      ctx.home_team_stats ctx.sport true with hhs
    set aw := FantasyProbCalc.calculate_team_strength
      ctx.away_team_stats ctx.sport false with haw
    by_cases htot : hs + aw = 0
    · rw [if_pos htot]
      norm_num
    · rw [if_neg htot]
      simp only []
      rw [div_add_div_same, div_self htot]

/-- C6: zero-denominator inputs are guarded with neutral defaults rather
than raising: a zero `season_average` makes the home/away scaling factor
the neutral 1.0 and the player-performance `try` body still succeeds
(given that the square-root model is nonzero on variances ≥ 1, as the
real `np.sqrt` is); a missing/unresolvable stat returns the neutral
probability 0.5 with confidence 0.0; a home record totalling zero games
makes the game-outcome computation raise internally, which the entry
point catches, returning the neutral 0.5/0.5 with confidence 0.0. -/
theorem C6_zero_denominator_guards :
    (∀ (sqrt ncdf : ℚ → ℚ) (ps : Models.PlayerStats) (prop_type : String)
        (line : ℚ) (ctx : ProbabilityCalculator.GameContext),
      (∀ x, 1 ≤ x → sqrt x ≠ 0) → ps.season_average = 0 →
      ProbabilityCalculator.home_away_factor ps ctx = 1 ∧
      ∃ r, ProbabilityCalculator.calculate_player_performance_probability_try
          sqrt ncdf ps prop_type line ctx = .ok r) ∧
    (∀ (sqrt ncdf : ℚ → ℚ) (ps : Models.PlayerStats) (prop_type : String)
        (line : ℚ) (ctx : ProbabilityCalculator.GameContext),
      ProbabilityCalculator.get_performance_stat_value ps prop_type = none →
      ProbabilityCalculator.calculate_player_performance_probability
          sqrt ncdf ps prop_type line ctx
        = { over_probability := 1/2, under_probability := 1/2,
            confidence := 0 }) ∧
    (∀ (std : List ℚ → ℚ) (ctx : ProbabilityCalculator.GameContext),
      ctx.home_team_stats.home_record = (0, 0) →
      ProbabilityCalculator.calculate_game_outcome_probability std ctx
        = { home_win_probability := 1/2, away_win_probability := 1/2,
            confidence := 0 }) := by
  refine ⟨?_, ?_, ?_⟩
  · intro sqrt ncdf ps prop_type line ctx hsqrt hseason
    constructor
    · unfold ProbabilityCalculator.home_away_factor
      rw [hseason]
      norm_num
    · cases hlook : ProbabilityCalculator.get_performance_stat_value ps
          prop_type with
      | none =>
        refine ⟨{ over_probability := 1/2, under_probability := 1/2,
                  confidence := 0 }, ?_⟩
        unfold ProbabilityCalculator.calculate_player_performance_probability_try
        rw [hlook]
        rfl
      | some v =>
        have hvar : (1:ℚ) ≤
            ProbabilityCalculator.calculate_player_performance_variance ps
              prop_type := le_max_right _ _
        have hnz := hsqrt _ hvar
        cases htry : ProbabilityCalculator.calculate_player_performance_probability_try
            sqrt ncdf ps prop_type line ctx with
        | ok r => exact ⟨r, rfl⟩
        | error e =>
          exfalso
          unfold ProbabilityCalculator.calculate_player_performance_probability_try
            at htry
          rw [hlook] at htry
          simp [Py.pydiv, if_neg hnz, bind, Except.bind, pure, Except.pure]
            at htry
  · intro sqrt ncdf ps prop_type line ctx hmissing
    unfold ProbabilityCalculator.calculate_player_performance_probability
      ProbabilityCalculator.calculate_player_performance_probability_try
    rw [hmissing]
    rfl
  · intro std ctx hrec
    have h1 : (ctx.home_team_stats.home_record.1 : ℚ) = 0 := by
      rw [hrec]
      norm_num
    have h2 : (ctx.home_team_stats.home_record.2 : ℚ) = 0 := by
      rw [hrec]
      norm_num
    unfold ProbabilityCalculator.calculate_game_outcome_probability
      ProbabilityCalculator.calculate_game_outcome_probability_try
      ProbabilityCalculator.calculate_statistical_probability
    simp [h1, h2, Py.pydiv, bind, Except.bind]

/-- C6 witness: the guard theorem instantiated on concrete degenerate
inputs — a player with zero season average, a missing stat name, and a
team whose home record totals zero games. -/
theorem C6_zero_denominator_guards_witness :
    (ProbabilityCalculator.home_away_factor samplePlayerStats
        sampleGameContext = 1 ∧
      ∃ r, ProbabilityCalculator.calculate_player_performance_probability_try
        (fun _ => 1) (fun _ => 1/2) samplePlayerStats "passing_yards" (501/2)
        sampleGameContext = .ok r) ∧
    ProbabilityCalculator.calculate_player_performance_probability
        (fun _ => 1) (fun _ => 1/2) samplePlayerStats "foo" 1 sampleGameContext
      = { over_probability := 1/2, under_probability := 1/2,
          confidence := 0 } ∧
    ProbabilityCalculator.calculate_game_outcome_probability (fun _ => 0)
        sampleGameContext
      = { home_win_probability := 1/2, away_win_probability := 1/2,
          confidence := 0 } :=
  ⟨C6_zero_denominator_guards.1 (fun _ => 1) (fun _ => 1/2) samplePlayerStats
      "passing_yards" (501/2) sampleGameContext
      (fun _ _ => by norm_num) rfl,
   C6_zero_denominator_guards.2.1 (fun _ => 1) (fun _ => 1/2)
      samplePlayerStats "foo" 1 sampleGameContext
      (by simp [ProbabilityCalculator.get_performance_stat_value,
        ProbabilityCalculator.stat_mapping_keys]),
   C6_zero_denominator_guards.2.2 (fun _ => 0) sampleGameContext rfl⟩

/-- C9 (mutation witness, the claim is right and the code wrong):
`_adjust_for_spread` mutates the caller's TeamStats through aliasing, so
after `calculate_point_differential_probability` returns, both teams'
`avg_points_for` fields differ from their values before the call
(home decreased by spread/2, away increased by spread/2); on the NFL
scenario with spread -3.5 the home average moves from 28.5 to 30.25. -/
theorem C9_adjust_for_spread_mutates :
    (∀ (sqrt ncdf : ℚ → ℚ) (std : List ℚ → ℚ)
        (ctx : ProbabilityCalculator.GameContext) (spread : ℚ),
      ((ProbabilityCalculator.calculate_point_differential_probability
          sqrt ncdf std ctx spread).2.home_team_stats.avg_points_for
        = ctx.home_team_stats.avg_points_for - spread / 2) ∧
      ((ProbabilityCalculator.calculate_point_differential_probability
          sqrt ncdf std ctx spread).2.away_team_stats.avg_points_for
        = ctx.away_team_stats.avg_points_for + spread / 2)) ∧
    ((ProbabilityCalculator.calculate_point_differential_probability
        (fun _ => 4) (fun _ => 1/2) (fun _ => 0) sampleSpreadContext
        (-7/2)).2.home_team_stats.avg_points_for = 121/4 ∧
      sampleSpreadContext.home_team_stats.avg_points_for = 57/2 ∧
      (121/4 : ℚ) ≠ 57/2) := by
  refine ⟨fun sqrt ncdf std ctx spread => ⟨rfl, rfl⟩, ?_, rfl, by norm_num⟩
  norm_num [ProbabilityCalculator.calculate_point_differential_probability,
    ProbabilityCalculator.adjust_for_spread, sampleSpreadContext,
    sampleTeamStats]
